import Mathlib

/-!
Verification of the result-aggregation and badge-rendering pipeline of the
terragrunt-gcp repository (scripts/security-report.py, scripts/security-badge.py,
scripts/coverage-badge.py).

The Python scripts are shallowly embedded:
* JSON values as parsed by `json.load` are the inductive type `Json`;
  JSON numbers are modelled as integers (every number appearing in the
  scanner payloads and in the claims is an integer).
* Python truthiness (`if results:`) is `Json.truthy`.
* `value.get(key, default)` on a non-dict raises `AttributeError`; this is
  modelled by `Json.get` returning `none`, turned into `Except.error` by the
  callers, and `len(x)` on a value with no length likewise (`Json.pyLen`).
* `generate_security_report` is decomposed into one processing function per
  scanner (`processCheckov`, `processTrivy`, `processGosec`, `processSemgrep`),
  each returning the per-tool report entry together with the issue count that
  the script adds to `total_issues` and to the tool's fixed severity bucket;
  the top-level function runs them in the script's order, propagating the
  first raised exception, exactly as the straight-line Python does.
* The report's `timestamp` field (`datetime.now().isoformat()`) is ambient
  process state, not data computed from the inputs; it is not part of the
  embedded report.  The ambient state is modelled by `Env` where a claim is
  about independence from it.
-/

namespace TerragruntGcp

/-- JSON values as parsed by Python `json.load`.  Numbers are modelled as
integers; objects are association lists (later bindings win on lookup, as
`json.load` keeps the last duplicate key). -/
inductive Json where
  | null : Json
  | bool : Bool → Json
  | num : Int → Json
  | str : String → Json
  | arr : List Json → Json
  | obj : List (String × Json) → Json
deriving Repr

/-- Python truthiness of a parsed JSON value (`if results:`). -/
def Json.truthy : Json → Bool
  | .null => false
  | .bool b => b
  | .num n => n != 0
  | .str s => s.length != 0
  | .arr xs => !xs.isEmpty
  | .obj kvs => !kvs.isEmpty

/-- Python `value.get(key, default)`.  Returns `none` when `value` is not a
dict, modelling the `AttributeError` raised there; on a dict the last binding
of the key wins, or the default when the key is absent. -/
def Json.get (j : Json) (key : String) (default : Json) : Option Json :=
  match j with
  | .obj kvs => some (((kvs.reverse).lookup key).getD default)
  | _ => none

/-- Python `len(x)` for a parsed JSON value: defined on sequences, strings and
dicts (counting distinct keys), `none` models the `TypeError` raised
elsewhere. -/
def Json.pyLen : Json → Option Nat
  | .arr xs => some xs.length
  | .str s => some s.length
  | .obj kvs => some ((kvs.map Prod.fst).eraseDups.length)
  | _ => none

/-- The value of `x` in Python `n += x` starting from an int accumulator:
ints add as themselves, bools as 0/1, anything else raises `TypeError`
(modelled as `none`). -/
def Json.asIntAddend : Json → Option Int
  | .num n => some n
  | .bool b => some (if b then 1 else 0)
  | _ => none

/-- One entry of the report's `tools` mapping: `status`, `issues_found`, plus
the remaining tool-specific fields of the entry, kept as raw JSON. -/
structure ToolReport where
  status : String
  issues_found : Json
  extra : List (String × Json)
deriving Repr

/-- The `tools` entry recorded for a tool whose results are absent or
unusable: `{"status": "failed", "issues_found": 0}`. -/
def failedTool : ToolReport := ⟨"failed", .num 0, []⟩

/-- The report's `summary` object (security-report.py lines 33-40). -/
structure Summary where
  total_issues : Int
  critical_issues : Int
  high_issues : Int
  medium_issues : Int
  low_issues : Int
  info_issues : Int
deriving Repr

/-- Checkov block of `generate_security_report` (lines 45-57): on a truthy
payload, reads the `failed` field (default 0) as the issue count, records
`passed` and `skipped`, and contributes the count to `total_issues` and to the
medium bucket (returned as the second component); otherwise records the tool
as failed with a zero contribution. -/
def processCheckov : Option Json → Except String (ToolReport × Int)
  | none => .ok (failedTool, 0)
  | some j =>
    if j.truthy then
      match j.get "failed" (.num 0) with
      | none => .error "AttributeError"
      | some v =>
        match v.asIntAddend with
        | none => .error "TypeError"
        | some n =>
          .ok (⟨"completed", v,
            [("passed", ((j.get "passed" (.num 0)).getD (.num 0))),
             ("skipped", ((j.get "skipped" (.num 0)).getD (.num 0)))]⟩, n)
    else .ok (failedTool, 0)

/-- Trivy block (lines 59-71): issue count is `len` of the `Results` field
(default `[]`); contributes to the high bucket. -/
def processTrivy : Option Json → Except String (ToolReport × Int)
  | none => .ok (failedTool, 0)
  | some j =>
    if j.truthy then
      match j.get "Results" (.arr []) with
      | none => .error "AttributeError"
      | some v =>
        match v.pyLen with
        | none => .error "TypeError"
        | some n => .ok (⟨"completed", .num n, [("vulnerabilities", v)]⟩, (n : Int))
    else .ok (failedTool, 0)

/-- Gosec block (lines 73-84): issue count is `len` of the `Issues` field
(default `[]`); contributes to the medium bucket. -/
def processGosec : Option Json → Except String (ToolReport × Int)
  | none => .ok (failedTool, 0)
  | some j =>
    if j.truthy then
      match j.get "Issues" (.arr []) with
      | none => .error "AttributeError"
      | some v =>
        match v.pyLen with
        | none => .error "TypeError"
        | some n => .ok (⟨"completed", .num n, [("issues", v)]⟩, (n : Int))
    else .ok (failedTool, 0)

/-- Semgrep block (lines 86-97): issue count is `len` of the `results` field
(default `[]`); contributes to the low bucket. -/
def processSemgrep : Option Json → Except String (ToolReport × Int)
  | none => .ok (failedTool, 0)
  | some j =>
    if j.truthy then
      match j.get "results" (.arr []) with
      | none => .error "AttributeError"
      | some v =>
        match v.pyLen with
        | none => .error "TypeError"
        | some n => .ok (⟨"completed", .num n, [("results", v)]⟩, (n : Int))
    else .ok (failedTool, 0)

/-- The banded step function computing `security_score` from `total_issues`
(security-report.py lines 109-120). -/
def security_score (total_issues : Int) : Int :=
  if total_issues = 0 then 100
  else if total_issues ≤ 2 then 95
  else if total_issues ≤ 5 then 85
  else if total_issues ≤ 10 then 70
  else 50

/-- `get_security_grade` (security-report.py lines 138-151). -/
def get_security_grade (score : Int) : String :=
  if score ≥ 95 then "A+"
  else if score ≥ 90 then "A"
  else if score ≥ 80 then "B"
  else if score ≥ 70 then "C"
  else if score ≥ 60 then "D"
  else "F"

/-- The generated security report, minus the ambient `timestamp` field (see
the module header). -/
structure Report where
  summary : Summary
  tools_checkov : ToolReport
  tools_trivy : ToolReport
  tools_gosec : ToolReport
  tools_semgrep : ToolReport
  recommendations : List String
  security_score : Int
  security_grade : String
deriving Repr

/-- Report assembly (security-report.py lines 30-123) from the four per-tool
entries and contributions: the summary buckets are the sums of the
contributions (checkov and gosec → medium, trivy → high, semgrep → low;
critical and info are never incremented), the recommendations are the four
conditional appends of lines 99-107, and score and grade come from the final
`total_issues`. -/
def mkReport (ck : ToolReport) (cn : Int) (tv : ToolReport) (tn : Int)
    (gsr : ToolReport) (gn : Int) (sgr : ToolReport) (sn : Int) : Report :=
  let summary : Summary := ⟨cn + tn + gn + sn, 0, tn, cn + gn, sn, 0⟩
  let recs : List String :=
    (if summary.critical_issues > 0 then
      ["🚨 Critical issues found - immediate action required"] else []) ++
    (if summary.high_issues > 0 then
      ["⚠️ High priority issues found - address within 24 hours"] else []) ++
    (if summary.medium_issues > 0 then
      ["📋 Medium priority issues found - address within 1 week"] else []) ++
    (if summary.low_issues > 0 then
      ["ℹ️ Low priority issues found - address when convenient"] else [])
  let sc := security_score summary.total_issues
  { summary := summary, tools_checkov := ck, tools_trivy := tv,
    tools_gosec := gsr, tools_semgrep := sgr,
    recommendations := recs, security_score := sc,
    security_grade := get_security_grade sc }

/-- `generate_security_report` (security-report.py lines 20-136) on the four
parsed input files (`none` = `load_json_file` returned `None`): processes the
tools in script order, propagating the first raised exception, and assembles
the report with `mkReport`. -/
def generate_security_report (checkov_results trivy_results gosec_results
    semgrep_results : Option Json) : Except String Report :=
  match processCheckov checkov_results with
  | .error e => .error e
  | .ok (ck, cn) =>
    match processTrivy trivy_results with
    | .error e => .error e
    | .ok (tv, tn) =>
      match processGosec gosec_results with
      | .error e => .error e
      | .ok (gsr, gn) =>
        match processSemgrep semgrep_results with
        | .error e => .error e
        | .ok (sgr, sn) => .ok (mkReport ck cn tv tn gsr gn sgr sn)

/-- The two-segment SVG badge template shared verbatim by
security-badge.py (lines 39-58 and 83-102) and coverage-badge.py (lines
79-98); the three f-strings differ only in the left-segment `label` text.
`text_width` is the right-segment width computed by the caller; the total
badge width is `text_width + 80`, the message is centred at
`60 + text_width // 2` (Nat division = Python floor division here). -/
def badgeSvg (label color message : String) (text_width : Nat) : String :=
  "<svg xmlns=\"http://www.w3.org/2000/svg\" width=\"" ++
  (toString (text_width + 80) ++
  ("\" height=\"20\">\n" ++
  "  <linearGradient id=\"b\" x2=\"0\" y2=\"100%\">\n" ++
  "    <stop offset=\"0\" stop-color=\"#bbb\" stop-opacity=\".1\"/>\n" ++
  "    <stop offset=\"1\" stop-opacity=\".1\"/>\n" ++
  "  </linearGradient>\n" ++
  "  <mask id=\"a\">\n" ++
  "    <rect width=\"100%\" height=\"100%\" rx=\"3\" fill=\"#fff\"/>\n" ++
  "  </mask>\n" ++
  "  <g mask=\"url(#a)\">\n" ++
  "    <path fill=\"#555\" d=\"M0 0h60v20H0z\"/>\n" ++
  "    <path fill=\"" ++ color ++ "\" d=\"M60 0h" ++ toString text_width ++
    "v20H60z\"/>\n" ++
  "  </g>\n" ++
  "  <rect width=\"100%\" height=\"100%\" rx=\"3\" fill=\"none\" stroke=\"rgba(0,0,0,.1)\"/>\n" ++
  "  <g fill=\"#fff\" text-anchor=\"middle\" font-family=\"DejaVu Sans,Verdana,Geneva,sans-serif\" font-size=\"11\">\n" ++
  "    <text x=\"30\" y=\"14\" fill=\"#010101\" fill-opacity=\".3\">" ++ label ++ "</text>\n" ++
  "    <text x=\"30\" y=\"13\" fill=\"#fff\">" ++ label ++ "</text>\n" ++
  "    <text x=\"" ++ toString (60 + text_width / 2) ++ "\" y=\"14\" fill=\"#010101\" fill-opacity=\".3\">" ++
    message ++ "</text>\n" ++
  "    <text x=\"" ++ toString (60 + text_width / 2) ++ "\" y=\"13\" fill=\"#fff\">" ++
    message ++ "</text>\n" ++
  "  </g>\n" ++
  "</svg>"))

/-- The quadruple `(svg, status, color, message)` returned by the three badge
generators. -/
structure Badge where
  svg : String
  status : String
  color : String
  message : String
deriving Repr, DecidableEq

/-- `create_security_badge` (security-badge.py lines 18-60).  The
`issues_count` parameter is accepted and unused, as in the script. -/
def create_security_badge (score : Int) (grade : String) (issues_count : Int) :
    Badge :=
  let cs : String × String :=
    if score ≥ 95 then ("brightgreen", "excellent")
    else if score ≥ 90 then ("green", "good")
    else if score ≥ 80 then ("yellow", "fair")
    else if score ≥ 70 then ("orange", "poor")
    else ("red", "critical")
  let message := toString score ++ "/100 (" ++ grade ++ ")"
  let text_width := message.length * 6 + 20
  ⟨badgeSvg "security" cs.1 message text_width, cs.2, cs.1, message⟩

/-- `create_issues_badge` (security-badge.py lines 62-104). -/
def create_issues_badge (issues_count : Int) : Badge :=
  let csm : String × String × String :=
    if issues_count = 0 then ("brightgreen", "clean", "0 issues")
    else if issues_count ≤ 2 then ("yellow", "minor", toString issues_count ++ " issues")
    else if issues_count ≤ 5 then ("orange", "moderate", toString issues_count ++ " issues")
    else ("red", "major", toString issues_count ++ " issues")
  let text_width := csm.2.2.length * 6 + 20
  ⟨badgeSvg "issues" csm.1 csm.2.2 text_width, csm.2.1, csm.1, csm.2.2⟩

/-- Python `"{:.1f}".format` of a one-decimal percentage, the percentage being
modelled in tenths (87.3 is the integer 873): exact for every value the
script can format from a one-decimal input. -/
def fmtTenths (t : Int) : String :=
  (if t < 0 then "-" else "") ++ toString (t.natAbs / 10) ++ "." ++ toString (t.natAbs % 10)

/-- `generate_coverage_badge` (coverage-badge.py lines 49-100), the coverage
percentage modelled in tenths of a percent (`none` = Python `None`). -/
def generate_coverage_badge (coverage_percent : Option Int) : Badge :=
  let scm : String × String × String :=
    match coverage_percent with
    | none => ("unknown", "lightgrey", "No data")
    | some t =>
      if t ≥ 900 then ("excellent", "brightgreen", fmtTenths t ++ "%")
      else if t ≥ 800 then ("good", "green", fmtTenths t ++ "%")
      else if t ≥ 700 then ("fair", "yellow", fmtTenths t ++ "%")
      else if t ≥ 600 then ("poor", "orange", fmtTenths t ++ "%")
      else ("critical", "red", fmtTenths t ++ "%")
  let text_width := scm.2.2.length * 6 + 20
  ⟨badgeSvg "coverage" scm.2.1 scm.2.2 text_width, scm.1, scm.2.1, scm.2.2⟩

/-- Ambient process state the scripts run in (wall clock, entropy source).
The badge-rendering functions execute in a process where this state is
available; the determinism claims are stated as independence of the rendering
from it. -/
structure Env where
  now : String
  seed : Nat

/-- One invocation of `create_security_badge` inside a process whose ambient
state is `env`: the script body makes no use of the clock or of any entropy
source, so the run is a function of the arguments alone. -/
def create_security_badge_run (env : Env) (score : Int) (grade : String)
    (issues_count : Int) : Badge :=
  create_security_badge score grade issues_count

/-- One invocation of `create_issues_badge` inside a process with ambient
state `env`. -/
def create_issues_badge_run (env : Env) (issues_count : Int) : Badge :=
  create_issues_badge issues_count

/-- One invocation of `generate_coverage_badge` inside a process with ambient
state `env`. -/
def generate_coverage_badge_run (env : Env) (coverage_percent : Option Int) :
    Badge :=
  generate_coverage_badge coverage_percent

/-- One rendering of the shared badge template for an arbitrary
`(label, message, color)` triple, with the right-segment width the scripts
compute from the message, inside a process with ambient state `env`. -/
def renderBadge (env : Env) (label message color : String) : String :=
  badgeSvg label color message (message.length * 6 + 20)

/-! Theorems. -/

/-- C1: the security score is a banded step function of `total_issues` alone:
0 → 100, 1-2 → 95, 3-5 → 85, 6-10 → 70, > 10 → 50; in particular
`total_issues = 2` gives 95, `total_issues = 3` gives 85 and
`total_issues = 11` gives 50. -/
theorem security_score_bands :
    (∀ n : Int,
      (n = 0 → security_score n = 100) ∧
      (1 ≤ n → n ≤ 2 → security_score n = 95) ∧
      (3 ≤ n → n ≤ 5 → security_score n = 85) ∧
      (6 ≤ n → n ≤ 10 → security_score n = 70) ∧
      (10 < n → security_score n = 50)) ∧
    security_score 2 = 95 ∧ security_score 3 = 85 ∧ security_score 11 = 50 := by
  refine ⟨fun n => ⟨?_, ?_, ?_, ?_, ?_⟩, by decide, by decide, by decide⟩ <;>
    (intros; unfold security_score; split_ifs <;> first | rfl | omega)

/-- Witness for `security_score_bands`: one input in each band. -/
theorem security_score_bands_witness :
    security_score 0 = 100 ∧ security_score 1 = 95 ∧ security_score 4 = 85 ∧
    security_score 7 = 70 ∧ security_score 11 = 50 :=
  ⟨(security_score_bands.1 0).1 rfl,
   (security_score_bands.1 1).2.1 (by decide) (by decide),
   (security_score_bands.1 4).2.2.1 (by decide) (by decide),
   (security_score_bands.1 7).2.2.2.1 (by decide) (by decide),
   (security_score_bands.1 11).2.2.2.2 (by decide)⟩

/-- C2: the security score is monotonically non-increasing in the total issue
count: for all counts `n1 ≤ n2`, `security_score n1 ≥ security_score n2`. -/
theorem security_score_monotone (n1 n2 : Nat) (h : n1 ≤ n2) :
    security_score (n1 : Int) ≥ security_score (n2 : Int) := by
  unfold security_score; split_ifs <;> omega

/-- Witness for `security_score_monotone` at `n1 = 1`, `n2 = 3`. -/
theorem security_score_monotone_witness :
    security_score ((1 : Nat) : Int) ≥ security_score ((3 : Nat) : Int) :=
  security_score_monotone 1 3 (by decide)

/-- C3: the grade bands of `get_security_grade` (≥95 → A+, ≥90 → A, ≥80 → B,
≥70 → C, ≥60 → D, below 60 → F), and a run with zero total issues gets score
100 and grade A+. -/
theorem security_grade_bands :
    (∀ s : Int,
      (95 ≤ s → get_security_grade s = "A+") ∧
      (90 ≤ s → s < 95 → get_security_grade s = "A") ∧
      (80 ≤ s → s < 90 → get_security_grade s = "B") ∧
      (70 ≤ s → s < 80 → get_security_grade s = "C") ∧
      (60 ≤ s → s < 70 → get_security_grade s = "D") ∧
      (s < 60 → get_security_grade s = "F")) ∧
    security_score 0 = 100 ∧ get_security_grade 100 = "A+" ∧
    get_security_grade (security_score 0) = "A+" := by
  refine ⟨fun s => ⟨?_, ?_, ?_, ?_, ?_, ?_⟩, by decide, by decide, by decide⟩ <;>
    (intros; unfold get_security_grade; split_ifs <;> first | rfl | omega)

/-- Witness for `security_grade_bands`: one score in each band. -/
theorem security_grade_bands_witness :
    get_security_grade 100 = "A+" ∧ get_security_grade 92 = "A" ∧
    get_security_grade 85 = "B" ∧ get_security_grade 75 = "C" ∧
    get_security_grade 65 = "D" ∧ get_security_grade 50 = "F" :=
  ⟨(security_grade_bands.1 100).1 (by decide),
   (security_grade_bands.1 92).2.1 (by decide) (by decide),
   (security_grade_bands.1 85).2.2.1 (by decide) (by decide),
   (security_grade_bands.1 75).2.2.2.1 (by decide) (by decide),
   (security_grade_bands.1 65).2.2.2.2.1 (by decide) (by decide),
   (security_grade_bands.1 50).2.2.2.2.2 (by decide)⟩

/-- Inversion: a successful run of `generate_security_report` is the
`mkReport` assembly of the four per-tool processing results. -/
theorem gen_ok_shape (c t g s : Option Json) (r : Report)
    (h : generate_security_report c t g s = Except.ok r) :
    ∃ ck cn tv tn gsr gn sgr sn,
      processCheckov c = Except.ok (ck, cn) ∧
      processTrivy t = Except.ok (tv, tn) ∧
      processGosec g = Except.ok (gsr, gn) ∧
      processSemgrep s = Except.ok (sgr, sn) ∧
      r = mkReport ck cn tv tn gsr gn sgr sn := by
  unfold generate_security_report at h
  split at h
  · exact absurd h (by simp)
  rename_i x1 ck cn hck
  split at h
  · exact absurd h (by simp)
  rename_i x2 tv tn htv
  split at h
  · exact absurd h (by simp)
  rename_i x3 gsr gn hgs
  split at h
  · exact absurd h (by simp)
  rename_i x4 sgr sn hsg
  injection h with h
  exact ⟨ck, cn, tv, tn, gsr, gn, sgr, sn, hck, htv, hgs, hsg, h.symm⟩

/-- The checkov input of the end-to-end scenario:
`{"failed": 2, "passed": 48, "skipped": 0}`. -/
def checkovScenario : Json :=
  .obj [("failed", .num 2), ("passed", .num 48), ("skipped", .num 0)]

/-- The gosec input of the end-to-end scenario: `{"Issues": []}`. -/
def gosecScenario : Json := .obj [("Issues", .arr [])]

/-- C4 counterexample: on the scenario inputs (checkov
`{failed: 2, passed: 48, skipped: 0}`, trivy absent, gosec `{Issues: []}`,
semgrep absent) the claimed output is false: the code gives security grade
"A+" (score 95 is in the ≥ 95 band), not "A", and the recommendation string
carries the script's "📋 " prefix. -/
theorem scenario_claim_counterexample :
    ¬ ∃ r : Report,
        generate_security_report (some checkovScenario) none (some gosecScenario) none =
          Except.ok r ∧
        r.summary.total_issues = 2 ∧ r.security_score = 95 ∧
        r.security_grade = "A" ∧
        r.recommendations = ["Medium priority issues found - address within 1 week"] := by
  rintro ⟨r, hr, -, -, hg, -⟩
  have h2 : (generate_security_report (some checkovScenario) none
      (some gosecScenario) none).map Report.security_grade = Except.ok "A+" := rfl
  rw [hr] at h2
  simp only [Except.map, Except.ok.injEq] at h2
  rw [hg] at h2
  exact absurd h2 (by decide)

/-- C4 amended: on the scenario inputs the report has `total_issues = 2`,
`security_score = 95`, `security_grade = "A+"` and recommendations
`["📋 Medium priority issues found - address within 1 week"]`. -/
theorem scenario_amended :
    ∃ r : Report,
      generate_security_report (some checkovScenario) none (some gosecScenario) none =
        Except.ok r ∧
      r.summary.total_issues = 2 ∧ r.security_score = 95 ∧
      r.security_grade = "A+" ∧
      r.recommendations = ["📋 Medium priority issues found - address within 1 week"] := by
  refine ⟨_, rfl, ?_, ?_, ?_, ?_⟩ <;> rfl

/-- C5: a tool whose input file is missing or unparsable (its parsed result
is `None`) is recorded as `{status: "failed", issues_found: 0}` with a zero
contribution and no raised error; and on every successful run the summary is
exactly the sum of the four per-tool contributions (checkov and gosec to
medium, trivy to high, semgrep to low), so such a tool changes no count. -/
theorem missing_input_failed_zero :
    processCheckov none = Except.ok (failedTool, 0) ∧
    processTrivy none = Except.ok (failedTool, 0) ∧
    processGosec none = Except.ok (failedTool, 0) ∧
    processSemgrep none = Except.ok (failedTool, 0) ∧
    (∀ t g s r, generate_security_report none t g s = Except.ok r →
      r.tools_checkov = failedTool) ∧
    (∀ c g s r, generate_security_report c none g s = Except.ok r →
      r.tools_trivy = failedTool) ∧
    (∀ c t s r, generate_security_report c t none s = Except.ok r →
      r.tools_gosec = failedTool) ∧
    (∀ c t g r, generate_security_report c t g none = Except.ok r →
      r.tools_semgrep = failedTool) ∧
    (∀ c t g s r, generate_security_report c t g s = Except.ok r →
      ∃ cn tn gn sn : Int,
        processCheckov c = Except.ok (r.tools_checkov, cn) ∧
        processTrivy t = Except.ok (r.tools_trivy, tn) ∧
        processGosec g = Except.ok (r.tools_gosec, gn) ∧
        processSemgrep s = Except.ok (r.tools_semgrep, sn) ∧
        r.summary.total_issues = cn + tn + gn + sn ∧
        r.summary.high_issues = tn ∧
        r.summary.medium_issues = cn + gn ∧
        r.summary.low_issues = sn) := by
  refine ⟨rfl, rfl, rfl, rfl, ?_, ?_, ?_, ?_, ?_⟩
  · intro t g s r h
    obtain ⟨ck, cn, tv, tn, gsr, gn, sgr, sn, h1, h2, h3, h4, rfl⟩ :=
      gen_ok_shape none t g s r h
    have h0 : (Except.ok (failedTool, (0 : Int)) :
        Except String (ToolReport × Int)) = Except.ok (ck, cn) := h1
    injection h0 with h0
    injection h0 with h0 h0n
    exact h0.symm
  · intro c g s r h
    obtain ⟨ck, cn, tv, tn, gsr, gn, sgr, sn, h1, h2, h3, h4, rfl⟩ :=
      gen_ok_shape c none g s r h
    have h0 : (Except.ok (failedTool, (0 : Int)) :
        Except String (ToolReport × Int)) = Except.ok (tv, tn) := h2
    injection h0 with h0
    injection h0 with h0 h0n
    exact h0.symm
  · intro c t s r h
    obtain ⟨ck, cn, tv, tn, gsr, gn, sgr, sn, h1, h2, h3, h4, rfl⟩ :=
      gen_ok_shape c t none s r h
    have h0 : (Except.ok (failedTool, (0 : Int)) :
        Except String (ToolReport × Int)) = Except.ok (gsr, gn) := h3
    injection h0 with h0
    injection h0 with h0 h0n
    exact h0.symm
  · intro c t g r h
    obtain ⟨ck, cn, tv, tn, gsr, gn, sgr, sn, h1, h2, h3, h4, rfl⟩ :=
      gen_ok_shape c t g none r h
    have h0 : (Except.ok (failedTool, (0 : Int)) :
        Except String (ToolReport × Int)) = Except.ok (sgr, sn) := h4
    injection h0 with h0
    injection h0 with h0 h0n
    exact h0.symm
  · intro c t g s r h
    obtain ⟨ck, cn, tv, tn, gsr, gn, sgr, sn, h1, h2, h3, h4, rfl⟩ :=
      gen_ok_shape c t g s r h
    exact ⟨cn, tn, gn, sn, h1, h2, h3, h4, rfl, rfl, rfl, rfl⟩

/-- Witness for `missing_input_failed_zero`: the all-absent run records every
tool as failed with zero issues. -/
theorem missing_input_failed_zero_witness :
    ∃ r : Report, generate_security_report none none none none = Except.ok r ∧
      r.tools_checkov = failedTool ∧ r.tools_trivy = failedTool ∧
      r.tools_gosec = failedTool ∧ r.tools_semgrep = failedTool :=
  ⟨_, rfl,
   missing_input_failed_zero.2.2.2.2.1 none none none _ rfl,
   missing_input_failed_zero.2.2.2.2.2.1 none none none _ rfl,
   missing_input_failed_zero.2.2.2.2.2.2.1 none none none _ rfl,
   missing_input_failed_zero.2.2.2.2.2.2.2.1 none none none _ rfl⟩

/-- C6: on every successful run, the recommendation list is exactly one fixed
advisory per non-zero severity bucket, in severity order critical, high,
medium, low — and the critical and info buckets are always zero, so the info
bucket (for which the script has no advisory) never has a non-zero count. -/
theorem recommendations_per_bucket :
    ∀ c t g s r, generate_security_report c t g s = Except.ok r →
      (r.recommendations =
        (if 0 < r.summary.critical_issues then
          ["🚨 Critical issues found - immediate action required"] else []) ++
        (if 0 < r.summary.high_issues then
          ["⚠️ High priority issues found - address within 24 hours"] else []) ++
        (if 0 < r.summary.medium_issues then
          ["📋 Medium priority issues found - address within 1 week"] else []) ++
        (if 0 < r.summary.low_issues then
          ["ℹ️ Low priority issues found - address when convenient"] else [])) ∧
      r.summary.critical_issues = 0 ∧ r.summary.info_issues = 0 := by
  intro c t g s r h
  obtain ⟨ck, cn, tv, tn, gsr, gn, sgr, sn, h1, h2, h3, h4, rfl⟩ :=
    gen_ok_shape c t g s r h
  exact ⟨rfl, rfl, rfl⟩

/-- Witness for `recommendations_per_bucket` on the end-to-end scenario
inputs, whose only non-empty bucket is medium. -/
theorem recommendations_per_bucket_witness :
    ∃ r : Report,
      generate_security_report (some checkovScenario) none (some gosecScenario) none =
        Except.ok r ∧
      ((r.recommendations =
        (if 0 < r.summary.critical_issues then
          ["🚨 Critical issues found - immediate action required"] else []) ++
        (if 0 < r.summary.high_issues then
          ["⚠️ High priority issues found - address within 24 hours"] else []) ++
        (if 0 < r.summary.medium_issues then
          ["📋 Medium priority issues found - address within 1 week"] else []) ++
        (if 0 < r.summary.low_issues then
          ["ℹ️ Low priority issues found - address when convenient"] else [])) ∧
      r.summary.critical_issues = 0 ∧ r.summary.info_issues = 0) :=
  ⟨_, rfl, recommendations_per_bucket (some checkovScenario) none
    (some gosecScenario) none _ rfl⟩

/-- C7 counterexample: the security-score badge colors do not follow the
grade cut points claimed.  At score 85 the code picks "yellow", not "green";
at 75 it picks "orange", not "yellow"; at 65 it picks "red", not "orange". -/
theorem badge_color_claim_counterexample :
    (create_security_badge 85 "B" 0).color = "yellow" ∧
    ¬ (create_security_badge 85 "B" 0).color = "green" ∧
    (create_security_badge 75 "C" 0).color = "orange" ∧
    ¬ (create_security_badge 75 "C" 0).color = "yellow" ∧
    (create_security_badge 65 "D" 0).color = "red" ∧
    ¬ (create_security_badge 65 "D" 0).color = "orange" := by
  refine ⟨rfl, ?_, rfl, ?_, rfl, ?_⟩ <;> decide

/-- C7 amended: the security-score badge color bands of the code are
≥ 95 → brightgreen, 90-94 → green, 80-89 → yellow, 70-79 → orange, and every
score below 70 → red. -/
theorem badge_color_bands :
    ∀ (score : Int) (grade : String) (issues_count : Int),
      (95 ≤ score →
        (create_security_badge score grade issues_count).color = "brightgreen") ∧
      (90 ≤ score → score < 95 →
        (create_security_badge score grade issues_count).color = "green") ∧
      (80 ≤ score → score < 90 →
        (create_security_badge score grade issues_count).color = "yellow") ∧
      (70 ≤ score → score < 80 →
        (create_security_badge score grade issues_count).color = "orange") ∧
      (score < 70 →
        (create_security_badge score grade issues_count).color = "red") := by
  intro score grade issues_count
  refine ⟨?_, ?_, ?_, ?_, ?_⟩ <;>
    (intros; simp only [create_security_badge]; split_ifs <;> first | rfl | omega)

/-- Witness for `badge_color_bands`: one score in each color band. -/
theorem badge_color_bands_witness :
    (create_security_badge 97 "A+" 0).color = "brightgreen" ∧
    (create_security_badge 92 "A" 0).color = "green" ∧
    (create_security_badge 85 "B" 0).color = "yellow" ∧
    (create_security_badge 75 "C" 0).color = "orange" ∧
    (create_security_badge 50 "F" 0).color = "red" :=
  ⟨(badge_color_bands 97 "A+" 0).1 (by decide),
   (badge_color_bands 92 "A" 0).2.1 (by decide) (by decide),
   (badge_color_bands 85 "B" 0).2.2.1 (by decide) (by decide),
   (badge_color_bands 75 "C" 0).2.2.2.1 (by decide) (by decide),
   (badge_color_bands 50 "F" 0).2.2.2.2 (by decide)⟩

/-- C8: badge rendering is a pure, deterministic function of the rendered
data — the output does not depend on the ambient process state (clock,
entropy), so rendering the same triple twice yields byte-identical SVG text
and the badge embeds no timestamp or random content; instantiated at
`(label="coverage", message="87.3%", color="green")`. -/
theorem badge_rendering_deterministic :
    (∀ (e1 e2 : Env) (label message color : String),
      renderBadge e1 label message color = renderBadge e2 label message color) ∧
    (∀ (e1 e2 : Env) (score : Int) (grade : String) (issues_count : Int),
      create_security_badge_run e1 score grade issues_count =
        create_security_badge_run e2 score grade issues_count) ∧
    (∀ (e1 e2 : Env) (issues_count : Int),
      create_issues_badge_run e1 issues_count =
        create_issues_badge_run e2 issues_count) ∧
    (∀ (e1 e2 : Env) (coverage_percent : Option Int),
      generate_coverage_badge_run e1 coverage_percent =
        generate_coverage_badge_run e2 coverage_percent) ∧
    renderBadge ⟨"2026-10-12T00:00:00", 17⟩ "coverage" "87.3%" "green" =
      renderBadge ⟨"2026-10-12T09:30:45", 42⟩ "coverage" "87.3%" "green" :=
  ⟨fun _ _ _ _ _ => rfl, fun _ _ _ _ _ => rfl, fun _ _ _ => rfl,
   fun _ _ _ => rfl, rfl⟩

/-- C9: the issues badge renders the template with right-segment width
`len(message) * 6 + 20` and the template's total width is that value plus 80
(the width attribute at the head of the SVG is exactly `text_width + 80`);
the message for 0 issues is "0 issues" (8 characters, total width 148) and
for 12 issues "12 issues" (9 characters, total width 154). -/
theorem issues_badge_width :
    (∀ n : Int,
      (create_issues_badge n).svg =
        badgeSvg "issues" (create_issues_badge n).color
          (create_issues_badge n).message
          ((create_issues_badge n).message.length * 6 + 20)) ∧
    (∀ (label color message : String) (text_width : Nat), ∃ rest : String,
      badgeSvg label color message text_width =
        "<svg xmlns=\"http://www.w3.org/2000/svg\" width=\"" ++
          (toString (text_width + 80) ++ rest)) ∧
    (create_issues_badge 0).message = "0 issues" ∧
    "0 issues".length * 6 + 20 + 80 = 148 ∧
    (create_issues_badge 12).message = "12 issues" ∧
    "12 issues".length * 6 + 20 + 80 = 154 := by
  exact ⟨fun n => rfl, fun label color message text_width => ⟨_, rfl⟩,
    rfl, by decide, rfl, by decide⟩

/-- `.get` on a non-object JSON value raises `AttributeError` (is `none`). -/
theorem get_of_non_obj (j : Json) (hno : ∀ kvs, j ≠ Json.obj kvs)
    (k : String) (d : Json) : j.get k d = none := by
  cases j <;> first | rfl | exact absurd rfl (hno _)

/-- The checkov block raises on a truthy non-object payload. -/
theorem processCheckov_raises (j : Json) (ht : j.truthy = true)
    (hno : ∀ kvs, j ≠ Json.obj kvs) :
    processCheckov (some j) = Except.error "AttributeError" := by
  simp only [processCheckov]
  rw [if_pos ht, get_of_non_obj j hno]

/-- The trivy block raises on a truthy non-object payload. -/
theorem processTrivy_raises (j : Json) (ht : j.truthy = true)
    (hno : ∀ kvs, j ≠ Json.obj kvs) :
    processTrivy (some j) = Except.error "AttributeError" := by
  simp only [processTrivy]
  rw [if_pos ht, get_of_non_obj j hno]

/-- The gosec block raises on a truthy non-object payload. -/
theorem processGosec_raises (j : Json) (ht : j.truthy = true)
    (hno : ∀ kvs, j ≠ Json.obj kvs) :
    processGosec (some j) = Except.error "AttributeError" := by
  simp only [processGosec]
  rw [if_pos ht, get_of_non_obj j hno]

/-- The semgrep block raises on a truthy non-object payload. -/
theorem processSemgrep_raises (j : Json) (ht : j.truthy = true)
    (hno : ∀ kvs, j ≠ Json.obj kvs) :
    processSemgrep (some j) = Except.error "AttributeError" := by
  simp only [processSemgrep]
  rw [if_pos ht, get_of_non_obj j hno]

/-- C10: when any tool's input file parses to a truthy non-object JSON value
(a non-empty array, a non-empty string, a true boolean, a non-zero number),
`generate_security_report` terminates with an uncaught exception — the run is
an `error`, never an `ok` report marking the tool as failed. -/
theorem truthy_non_object_raises :
    ∀ j : Json, j.truthy = true → (∀ kvs, j ≠ Json.obj kvs) →
      (∀ t g s, ∃ e, generate_security_report (some j) t g s = Except.error e) ∧
      (∀ c g s, ∃ e, generate_security_report c (some j) g s = Except.error e) ∧
      (∀ c t s, ∃ e, generate_security_report c t (some j) s = Except.error e) ∧
      (∀ c t g, ∃ e, generate_security_report c t g (some j) = Except.error e) := by
  intro j ht hno
  have key : ∀ x : Except String Report,
      (∃ e, x = Except.error e) ∨ ∃ r, x = Except.ok r := by
    intro x; cases x
    · exact Or.inl ⟨_, rfl⟩
    · exact Or.inr ⟨_, rfl⟩
  refine ⟨?_, ?_, ?_, ?_⟩
  · intro t g s
    rcases key (generate_security_report (some j) t g s) with he | ⟨r, hr⟩
    · exact he
    obtain ⟨ck, cn, _, _, _, _, _, _, h1, _, _, _, _⟩ :=
      gen_ok_shape (some j) t g s r hr
    rw [processCheckov_raises j ht hno] at h1
    exact absurd h1 (by simp)
  · intro c g s
    rcases key (generate_security_report c (some j) g s) with he | ⟨r, hr⟩
    · exact he
    obtain ⟨_, _, tv, tn, _, _, _, _, _, h2, _, _, _⟩ :=
      gen_ok_shape c (some j) g s r hr
    rw [processTrivy_raises j ht hno] at h2
    exact absurd h2 (by simp)
  · intro c t s
    rcases key (generate_security_report c t (some j) s) with he | ⟨r, hr⟩
    · exact he
    obtain ⟨_, _, _, _, gsr, gn, _, _, _, _, h3, _, _⟩ :=
      gen_ok_shape c t (some j) s r hr
    rw [processGosec_raises j ht hno] at h3
    exact absurd h3 (by simp)
  · intro c t g
    rcases key (generate_security_report c t g (some j)) with he | ⟨r, hr⟩
    · exact he
    obtain ⟨_, _, _, _, _, _, sgr, sn, _, _, _, h4, _⟩ :=
      gen_ok_shape c t g (some j) r hr
    rw [processSemgrep_raises j ht hno] at h4
    exact absurd h4 (by simp)

/-- Witness for `truthy_non_object_raises`: a non-empty array for checkov and
a non-empty string for trivy each abort the run. -/
theorem truthy_non_object_raises_witness :
    (∃ e, generate_security_report (some (Json.arr [Json.null])) none none none =
      Except.error e) ∧
    (∃ e, generate_security_report none (some (Json.str "x")) none none =
      Except.error e) :=
  ⟨(truthy_non_object_raises (Json.arr [Json.null]) rfl
      (fun kvs h => Json.noConfusion h)).1 none none none,
   (truthy_non_object_raises (Json.str "x") rfl
      (fun kvs h => Json.noConfusion h)).2.1 none none none⟩

end TerragruntGcp
